import Mathlib

/-
Shallow embedding of the mittens warmup engine and its transport clients.

Sources embedded:
  - src/pkg/grpc/client.go        (gRPC client: NewClient, connect, Request, Close)
  - src/internal/pkg/warmup/warmup.go
      warmup package: Warmup, GetWarmupHTTPRequests, GetWarmupGrpcRequests, Run,
        HTTPWarmupWorker, GrpcWarmupWorker, waitForRampUp
      http package: Client.SendRequest

Network and scheduling effects are passed in explicitly: every outcome the
network would produce (dial error, invoke error, durations, random draws) is a
parameter, and the functions compute exactly what the Go control flow does with
those outcomes.  Durations are Nats (abstract clock ticks), errors are
`Option String` (`none` = Go `nil`).
-/

namespace Mittens

/-- Embeds `response.Response`: {Duration, Err, Type, StatusCode}. -/
structure Response where
  duration : Nat
  err : Option String
  type : String
  statusCode : Nat
deriving Repr, DecidableEq

/-! ## gRPC client (src/pkg/grpc/client.go) -/

/-- The network-determined outcomes of one `Request` call: what the dial would
return if attempted, what `conn.Close()` would later return, what the request
parser construction would return, and what `InvokeRPC` would return and how
long it would take. -/
structure GrpcNet where
  dialErr : Option String
  closeErr : Option String
  parseErr : Option String
  invokeErr : Option String
  invokeDuration : Nat
deriving Repr, DecidableEq

/-- Embeds `grpc.Client`.  `grpcConnectOnceDone` models whether the
`sync.Once` has fired; `connSet` models `conn`/`descriptorSource` being
non-nil; `connClose` models the result the stored close function returns
(`none` for the initial no-op `func() error { return nil }`); `dialCount`
counts actual dial attempts, observing the connect-once behaviour. -/
structure GrpcClient where
  host : String
  timeoutSeconds : Nat
  insecure : Bool
  grpcConnectOnceDone : Bool
  connClose : Option String
  connSet : Bool
  dialCount : Nat
deriving Repr, DecidableEq

/-- Embeds `grpc.NewClient`: fresh `sync.Once`, close function initialized to
the no-op returning nil. -/
def GrpcClient.NewClient (host : String) (insecure : Bool) (timeoutSeconds : Nat) : GrpcClient :=
  { host := host, timeoutSeconds := timeoutSeconds, insecure := insecure,
    grpcConnectOnceDone := false, connClose := none, connSet := false, dialCount := 0 }

/-- Embeds `grpc.Client.connect`: performs one dial attempt; on dial error
returns the wrapped error and installs nothing; on success installs the
connection, the descriptor source and the real close function. -/
def GrpcClient.connect (c : GrpcClient) (net : GrpcNet) : GrpcClient × Option String :=
  let c1 : GrpcClient := { c with dialCount := c.dialCount + 1 }
  match net.dialErr with
  | some e => (c1, some ("Grpc dial: " ++ e))
  | none => ({ c1 with connSet := true, connClose := net.closeErr }, none)

/-- Embeds `grpc.Client.Request`.  The local variable `connErr` is fresh per
call and is assigned only when the `sync.Once` actually runs the connect
(source lines 83-86); afterwards the parser is constructed and `InvokeRPC`
runs.  Note the source returns `Err: nil` on both the `InvokeRPC` error branch
and the success branch (source lines 106-109). -/
def GrpcClient.Request (c : GrpcClient) (net : GrpcNet) (serviceMethod : String)
    (message : String) (headers : List String) : GrpcClient × Response :=
  let onceResult : GrpcClient × Option String :=
    if c.grpcConnectOnceDone then (c, none)
    else
      let r := c.connect net
      ({ r.1 with grpcConnectOnceDone := true }, r.2)
  let c1 := onceResult.1
  match onceResult.2 with
  | some e => (c1, { duration := 0, err := some e, type := "grpc", statusCode := 0 })
  | none =>
    match net.parseErr with
    | some e => (c1, { duration := 0, err := some e, type := "grpc", statusCode := 0 })
    | none =>
      match net.invokeErr with
      | some _ => (c1, { duration := net.invokeDuration, err := none, type := "grpc", statusCode := 0 })
      | none => (c1, { duration := net.invokeDuration, err := none, type := "grpc", statusCode := 0 })

/-- Embeds `grpc.Client.Close`: returns whatever the stored close function
returns. -/
def GrpcClient.Close (c : GrpcClient) : Option String :=
  c.connClose

/-! ## HTTP client (`http.Client.SendRequest`, src/internal/pkg/warmup/warmup.go
second file, lines 226-265) -/

/-- The network-determined outcomes of one `SendRequest` call, with an explicit
clock: method entry is at tick 0; building the request and its headers takes
`constructDuration` ticks; `httpClient.Do` takes `doDuration` ticks; draining
the body with `io.Copy` takes `drainDuration` ticks. -/
structure HttpNet where
  newRequestErr : Option String
  constructDuration : Nat
  doErr : Option String
  doDuration : Nat
  drainErr : Option String
  drainDuration : Nat
  statusCode : Nat
deriving Repr, DecidableEq

/-- Embeds `http.Client.SendRequest`.  The source captures `startTime` after
the request and headers are built, calls `Do`, captures `endTime` immediately
after `Do` returns, and only then drains the body; every returned `Duration`
is `endTime.Sub(startTime)`. -/
def SendRequest (net : HttpNet) : Response :=
  match net.newRequestErr with
  | some e => { duration := 0, err := some e, type := "http", statusCode := 0 }
  | none =>
    let startTime := net.constructDuration
    let endTime := startTime + net.doDuration
    match net.doErr with
    | some e => { duration := endTime - startTime, err := some e, type := "http", statusCode := 0 }
    | none =>
      match net.drainErr with
      | some e =>
        { duration := endTime - startTime, err := some e, type := "http", statusCode := net.statusCode }
      | none =>
        { duration := endTime - startTime, err := none, type := "http", statusCode := net.statusCode }

/-- Written from the spec's sentence, for comparison with `SendRequest`: the
wall-clock span from request construction (method entry) until the response
body is fully drained. -/
def specDurationConstructionToDrain (net : HttpNet) : Nat :=
  net.constructDuration + net.doDuration + net.drainDuration

/-! ## Warmup (src/internal/pkg/warmup/warmup.go) -/

/-- Embeds `http.Request`: {Method, Path, Body}. -/
structure HttpRequest where
  method : String
  path : String
  body : Option String
deriving Repr, DecidableEq

/-- Embeds `grpc.Request`: {ServiceMethod, Message}. -/
structure GrpcRequest where
  serviceMethod : String
  message : String
deriving Repr, DecidableEq

/-- Embeds `warmup.Warmup` (the `Target` clients are modelled separately).
`Concurrency` and `ConcurrencyTargetSeconds` are Go `int`s, embedded as `Int`. -/
structure Warmup where
  Concurrency : Int
  HttpRequests : List HttpRequest
  HttpHeaders : List String
  GrpcRequests : List GrpcRequest
  RequestDelayMilliseconds : Nat
  ConcurrencyTargetSeconds : Int
deriving Repr, DecidableEq

/-- Embeds `Warmup.GetWarmupHTTPRequests`.  `picks` is the sequence of
`rand.Intn` draws the producer goroutine makes before the `time.After`
deadline fires (each draw is a value below the pool length).  The result is
the sequence of descriptors sent on the channel, paired with the number of
seconds until the channel is closed: an empty pool closes the channel
immediately (0 seconds, before the deadline timer is even created); a
non-empty pool closes it when the deadline fires. -/
def Warmup.GetWarmupHTTPRequests (w : Warmup) (maxDurationSeconds : Nat)
    (picks : List Nat) : List HttpRequest × Nat :=
  if w.HttpRequests.length = 0 then ([], 0)
  else
    (picks.map (fun n => w.HttpRequests.getD (n % w.HttpRequests.length) ⟨"", "", none⟩),
      maxDurationSeconds)

/-- Embeds `Warmup.GetWarmupGrpcRequests`; same structure as the HTTP source
over the gRPC pool. -/
def Warmup.GetWarmupGrpcRequests (w : Warmup) (maxDurationSeconds : Nat)
    (picks : List Nat) : List GrpcRequest × Nat :=
  if w.GrpcRequests.length = 0 then ([], 0)
  else
    (picks.map (fun n => w.GrpcRequests.getD (n % w.GrpcRequests.length) ⟨"", ""⟩),
      maxDurationSeconds)

/-- Embeds `waitForRampUp`, returning the number of seconds slept:
`time.Sleep` runs only when `currentConcurrency > 1 && rampUpInterval > 0`. -/
def waitForRampUp (rampUpInterval : Int) (currentConcurrency : Int) : Int :=
  if 1 < currentConcurrency ∧ 0 < rampUpInterval then rampUpInterval else 0

/-- Observable control-thread events of one `Run` call, in program order. -/
inductive RunEvent
  | rampSleep (seconds : Int)
  | httpSpawn (index : Nat)
  | grpcConnect (err : Option String)
  | logConnectError (e : String)
  | grpcSpawn (index : Nat)
deriving Repr, DecidableEq

/-- The spawn event of worker `i` of a phase (`isHttp` selects the phase). -/
def spawnEvent (isHttp : Bool) (i : Nat) : RunEvent :=
  if isHttp then RunEvent.httpSpawn i else RunEvent.grpcSpawn i

/-- One phase's launch loop, `for i := 1; i <= w.Concurrency; i++`: each
iteration calls `waitForRampUp(rampUpInterval, i)` then spawns worker `i`.
A non-positive concurrency runs zero iterations. -/
def phaseEvents (isHttp : Bool) (rampUpInterval : Int) (concurrency : Int) : List RunEvent :=
  (List.range concurrency.toNat).flatMap
    (fun k => [RunEvent.rampSleep (waitForRampUp rampUpInterval (Int.ofNat k + 1)),
               spawnEvent isHttp (k + 1)])

/-- Embeds `Warmup.Run` as the sequence of control-thread events it performs.
`connErr` is what the gRPC client's one `Connect` call would return if made.
The first statement after seeding the generator is the unguarded integer
division `ConcurrencyTargetSeconds / Concurrency`; `none` models the Go
runtime division-by-zero panic when `Concurrency = 0`.  The HTTP launch loop
runs first; then, only if there are gRPC requests, `Connect` is called once,
and on error the error is logged and no gRPC worker is spawned. -/
def Warmup.Run (w : Warmup) (hasHttpRequests hasGrpcRequests : Bool)
    (connErr : Option String) : Option (List RunEvent) :=
  if w.Concurrency = 0 then none
  else
    let rampUpInterval := Int.tdiv w.ConcurrencyTargetSeconds w.Concurrency
    let httpEvents :=
      if hasHttpRequests then phaseEvents true rampUpInterval w.Concurrency else []
    let grpcEvents :=
      if hasGrpcRequests then
        match connErr with
        | some e => [RunEvent.grpcConnect (some e), RunEvent.logConnectError e]
        | none => RunEvent.grpcConnect none :: phaseEvents false rampUpInterval w.Concurrency
      else []
    some (httpEvents ++ grpcEvents)

/-- Classification of one worker log line. -/
inductive LogClass
  | errorLog
  | successLog
  | nonSuccessLog
  | grpcSuccessLog
deriving Repr, DecidableEq

/-- Observable events of one worker goroutine, in program order. -/
inductive WorkerEvent
  | sleep (milliseconds : Nat)
  | send
  | increment
  | logged (c : LogClass)
deriving Repr, DecidableEq

/-- One iteration of `HTTPWarmupWorker` whose send produced `resp`: sleep the
pacing delay, send, then either log the error (no increment) or increment and
log by status class (`resp.StatusCode/100 == 2`). -/
def httpIterEvents (requestDelayMilliseconds : Nat) (resp : Response) : List WorkerEvent :=
  [WorkerEvent.sleep requestDelayMilliseconds, WorkerEvent.send] ++
    (if resp.err.isSome then [WorkerEvent.logged LogClass.errorLog]
     else [WorkerEvent.increment,
           WorkerEvent.logged
             (if resp.statusCode / 100 = 2 then LogClass.successLog else LogClass.nonSuccessLog)])

/-- Embeds `Warmup.HTTPWarmupWorker` with `resps` the responses its sends
produce, one per descriptor received from the channel; returns the final value
of `*requestsSentCounter` (started at `counter`) and the worker's events. -/
def HTTPWarmupWorker (requestDelayMilliseconds : Nat) (resps : List Response)
    (counter : Nat) : Nat × List WorkerEvent :=
  match resps with
  | [] => (counter, [])
  | r :: rest =>
    let c1 := if r.err.isSome then counter else counter + 1
    let tail := HTTPWarmupWorker requestDelayMilliseconds rest c1
    (tail.1, httpIterEvents requestDelayMilliseconds r ++ tail.2)

/-- One iteration of `GrpcWarmupWorker`: sleep, send, then either log the error
(no increment) or increment and log success unconditionally. -/
def grpcIterEvents (requestDelayMilliseconds : Nat) (resp : Response) : List WorkerEvent :=
  [WorkerEvent.sleep requestDelayMilliseconds, WorkerEvent.send] ++
    (if resp.err.isSome then [WorkerEvent.logged LogClass.errorLog]
     else [WorkerEvent.increment, WorkerEvent.logged LogClass.grpcSuccessLog])

/-- Embeds `Warmup.GrpcWarmupWorker`, analogously to `HTTPWarmupWorker`. -/
def GrpcWarmupWorker (requestDelayMilliseconds : Nat) (resps : List Response)
    (counter : Nat) : Nat × List WorkerEvent :=
  match resps with
  | [] => (counter, [])
  | r :: rest =>
    let c1 := if r.err.isSome then counter else counter + 1
    let tail := GrpcWarmupWorker requestDelayMilliseconds rest c1
    (tail.1, grpcIterEvents requestDelayMilliseconds r ++ tail.2)

/-! ## Observation helpers -/

/-- Whether a run event is the gRPC `Connect` call. -/
def isGrpcConnect : RunEvent → Bool
  | RunEvent.grpcConnect _ => true
  | _ => false

/-- Whether a run event spawns a gRPC worker. -/
def isGrpcSpawn : RunEvent → Bool
  | RunEvent.grpcSpawn _ => true
  | _ => false

/-- The ramp-up pauses of an event sequence, in order. -/
def rampSleeps (evts : List RunEvent) : List Int :=
  evts.filterMap fun e =>
    match e with
    | RunEvent.rampSleep s => some s
    | _ => none

/-- In `evts`, every send is immediately preceded by a pacing sleep of
`delay` milliseconds. -/
def sleepBeforeSend (delay : Nat) (evts : List WorkerEvent) : Prop :=
  ∀ i, evts[i]? = some WorkerEvent.send →
    0 < i ∧ evts[i - 1]? = some (WorkerEvent.sleep delay)

/-! ## Helper lemmas -/

lemma mem_phaseEvents {e : RunEvent} {b : Bool} {itv c : Int}
    (h : e ∈ phaseEvents b itv c) :
    (∃ s, e = RunEvent.rampSleep s) ∨ ∃ k, e = spawnEvent b k := by
  simp only [phaseEvents, List.mem_flatMap, List.mem_range, List.mem_cons,
    List.mem_singleton, List.not_mem_nil, or_false] at h
  obtain ⟨k, -, hmem⟩ := h
  rcases hmem with rfl | rfl
  · exact Or.inl ⟨_, rfl⟩
  · exact Or.inr ⟨_, rfl⟩

lemma countP_isGrpcConnect_phaseEvents (b : Bool) (itv c : Int) :
    (phaseEvents b itv c).countP isGrpcConnect = 0 := by
  refine List.countP_eq_zero.mpr fun e he => ?_
  rcases mem_phaseEvents he with ⟨s, rfl⟩ | ⟨k, rfl⟩
  · simp [isGrpcConnect]
  · cases b <;> simp [isGrpcConnect, spawnEvent]

lemma countP_isGrpcSpawn_phaseEvents_http (itv c : Int) :
    (phaseEvents true itv c).countP isGrpcSpawn = 0 := by
  refine List.countP_eq_zero.mpr fun e he => ?_
  rcases mem_phaseEvents he with ⟨s, rfl⟩ | ⟨k, rfl⟩
  · simp [isGrpcSpawn]
  · simp [isGrpcSpawn, spawnEvent]

lemma rampSleeps_flatMap (b : Bool) (itv : Int) (l : List Nat) :
    rampSleeps (l.flatMap
      (fun k => [RunEvent.rampSleep (waitForRampUp itv (Int.ofNat k + 1)),
                 spawnEvent b (k + 1)])) =
      l.map (fun k => waitForRampUp itv (Int.ofNat k + 1)) := by
  induction l with
  | nil => rfl
  | cons a l ih =>
    cases b <;>
      simp [rampSleeps, List.flatMap_cons, List.filterMap_append, spawnEvent] <;>
      simpa [rampSleeps] using ih

lemma rampSleeps_phaseEvents (b : Bool) (itv c : Int) :
    rampSleeps (phaseEvents b itv c) =
      (List.range c.toNat).map (fun k => waitForRampUp itv (Int.ofNat k + 1)) :=
  rampSleeps_flatMap b itv (List.range c.toNat)

lemma HTTPWarmupWorker_counter (d : Nat) (resps : List Response) (c : Nat) :
    (HTTPWarmupWorker d resps c).1 = c + resps.countP (fun r => r.err.isNone) := by
  induction resps generalizing c with
  | nil => simp [HTTPWarmupWorker]
  | cons r rest ih =>
    simp only [HTTPWarmupWorker, List.countP_cons, ih]
    cases hr : r.err <;> simp [hr, Option.isSome, Option.isNone] <;> omega

lemma GrpcWarmupWorker_counter (d : Nat) (resps : List Response) (c : Nat) :
    (GrpcWarmupWorker d resps c).1 = c + resps.countP (fun r => r.err.isNone) := by
  induction resps generalizing c with
  | nil => simp [GrpcWarmupWorker]
  | cons r rest ih =>
    simp only [GrpcWarmupWorker, List.countP_cons, ih]
    cases hr : r.err <;> simp [hr, Option.isSome, Option.isNone] <;> omega

lemma sleepBeforeSend_append {d : Nat} {l1 l2 : List WorkerEvent}
    (h1 : sleepBeforeSend d l1) (h2 : sleepBeforeSend d l2) :
    sleepBeforeSend d (l1 ++ l2) := by
  intro i hi
  by_cases hlt : i < l1.length
  · rw [List.getElem?_append_left hlt] at hi
    obtain ⟨hpos, hprev⟩ := h1 i hi
    refine ⟨hpos, ?_⟩
    rw [List.getElem?_append_left (by omega)]
    exact hprev
  · push_neg at hlt
    rw [List.getElem?_append_right hlt] at hi
    obtain ⟨hpos, hprev⟩ := h2 _ hi
    have hi1 : l1.length + 1 ≤ i := by omega
    refine ⟨by omega, ?_⟩
    rw [List.getElem?_append_right (by omega)]
    have : i - 1 - l1.length = i - l1.length - 1 := by omega
    rw [this]
    exact hprev

lemma sleepBeforeSend_httpIterEvents (d : Nat) (r : Response) :
    sleepBeforeSend d (httpIterEvents d r) := by
  intro i hi
  unfold httpIterEvents at hi ⊢
  by_cases he : r.err.isSome
  · simp only [he, if_true, List.cons_append, List.nil_append] at hi ⊢
    match i with
    | 1 => exact ⟨Nat.one_pos, rfl⟩
    | 0 => exact absurd hi (by simp)
    | 2 => exact absurd hi (by simp)
    | n + 3 => exact absurd hi (by simp)
  · simp only [he, if_false, List.cons_append, List.nil_append] at hi ⊢
    match i with
    | 1 => exact ⟨Nat.one_pos, rfl⟩
    | 0 => exact absurd hi (by simp)
    | 2 => exact absurd hi (by simp)
    | 3 => exact absurd hi (by simp)
    | n + 4 => exact absurd hi (by simp)

lemma sleepBeforeSend_grpcIterEvents (d : Nat) (r : Response) :
    sleepBeforeSend d (grpcIterEvents d r) := by
  intro i hi
  unfold grpcIterEvents at hi ⊢
  by_cases he : r.err.isSome
  · simp only [he, if_true, List.cons_append, List.nil_append] at hi ⊢
    match i with
    | 1 => exact ⟨Nat.one_pos, rfl⟩
    | 0 => exact absurd hi (by simp)
    | 2 => exact absurd hi (by simp)
    | n + 3 => exact absurd hi (by simp)
  · simp only [he, if_false, List.cons_append, List.nil_append] at hi ⊢
    match i with
    | 1 => exact ⟨Nat.one_pos, rfl⟩
    | 0 => exact absurd hi (by simp)
    | 2 => exact absurd hi (by simp)
    | 3 => exact absurd hi (by simp)
    | n + 4 => exact absurd hi (by simp)

lemma sleepBeforeSend_HTTPWarmupWorker (d : Nat) (resps : List Response) (c : Nat) :
    sleepBeforeSend d (HTTPWarmupWorker d resps c).2 := by
  induction resps generalizing c with
  | nil => intro i hi; simp [HTTPWarmupWorker] at hi
  | cons r rest ih =>
    exact sleepBeforeSend_append (sleepBeforeSend_httpIterEvents d r) (ih _)

lemma sleepBeforeSend_GrpcWarmupWorker (d : Nat) (resps : List Response) (c : Nat) :
    sleepBeforeSend d (GrpcWarmupWorker d resps c).2 := by
  induction resps generalizing c with
  | nil => intro i hi; simp [GrpcWarmupWorker] at hi
  | cons r rest ih =>
    exact sleepBeforeSend_append (sleepBeforeSend_grpcIterEvents d r) (ih _)

/-! ## Concrete inputs used by the claim theorems -/

/-- A call environment whose connect succeeds but whose `InvokeRPC` fails. -/
def c1net : GrpcNet :=
  { dialErr := none, closeErr := none, parseErr := none,
    invokeErr := some "rpc failed", invokeDuration := 4 }

/-- A configuration with zero concurrency. -/
def c2warmup : Warmup :=
  { Concurrency := 0, HttpRequests := [], HttpHeaders := [], GrpcRequests := [],
    RequestDelayMilliseconds := 0, ConcurrencyTargetSeconds := 10 }

/-- A call environment whose dial fails. -/
def c3netFail : GrpcNet :=
  { dialErr := some "connection refused", closeErr := none, parseErr := none,
    invokeErr := none, invokeDuration := 2 }

/-- A later call environment: were a second dial attempted it would also fail,
and parsing and invocation would succeed. -/
def c3netRetry : GrpcNet :=
  { dialErr := some "still refused", closeErr := none, parseErr := none,
    invokeErr := none, invokeDuration := 2 }

/-- An HTTP call taking 1 tick to build, 5 ticks in `Do`, 3 ticks to drain. -/
def c4net : HttpNet :=
  { newRequestErr := none, constructDuration := 1, doErr := none, doDuration := 5,
    drainErr := none, drainDuration := 3, statusCode := 200 }

/-- A configuration with empty descriptor pools. -/
def w0 : Warmup :=
  { Concurrency := 1, HttpRequests := [], HttpHeaders := [], GrpcRequests := [],
    RequestDelayMilliseconds := 0, ConcurrencyTargetSeconds := 0 }

/-- A configuration with concurrency 2. -/
def w5 : Warmup :=
  { Concurrency := 2, HttpRequests := [⟨"GET", "/a", none⟩], HttpHeaders := [],
    GrpcRequests := [⟨"pkg.Svc/M", ""⟩], RequestDelayMilliseconds := 0,
    ConcurrencyTargetSeconds := 4 }

/-- The spec's ramp example: concurrency 3, ramp window 6 seconds. -/
def w6 : Warmup :=
  { Concurrency := 3, HttpRequests := [⟨"GET", "/a", none⟩], HttpHeaders := [],
    GrpcRequests := [⟨"pkg.Svc/M", ""⟩], RequestDelayMilliseconds := 0,
    ConcurrencyTargetSeconds := 6 }

/-- A 2xx no-error response. -/
def okResp : Response := { duration := 1, err := none, type := "http", statusCode := 200 }

/-- An erroneous response. -/
def errResp : Response := { duration := 1, err := some "timeout", type := "http", statusCode := 0 }

/-- A non-2xx no-error response. -/
def badResp : Response := { duration := 1, err := none, type := "http", statusCode := 500 }

/-! ## Claim theorems -/

/-- Claim C1 (code bug at the gRPC client): the worker side of the claim
holds — an Outcome with an error present is only logged and never increments
the counter — but the source's `Request` returns `Err: nil` on the `InvokeRPC`
error branch (client.go lines 106-108), so an RPC invocation that fails after
a successful connect yields an Outcome carrying no error, and the worker
increments the Result Counter for it.  Evaluated here at the failing input:
a successful connect followed by a failing invocation produces `err = none`
and the gRPC worker's counter rises from 0 to 1. -/
theorem grpc_invoke_error_swallowed_increments_counter :
    c1net.invokeErr = some "rpc failed" ∧
    (((GrpcClient.NewClient "host" false 5).Request c1net "pkg.Svc/M" "" []).2).err = none ∧
    (GrpcWarmupWorker 0
      [((GrpcClient.NewClient "host" false 5).Request c1net "pkg.Svc/M" "" []).2] 0).1 = 1 :=
  ⟨rfl, rfl, rfl⟩

/-- Claim C2 (code bug): `Run` performs the integer division
`ConcurrencyTargetSeconds / Concurrency` unguarded as its first computation,
so a configuration with zero concurrency is not rejected — it faults with a
division by zero (modelled as `none`) even when no HTTP and no gRPC requests
are configured; and a negative concurrency is not rejected either: the run
proceeds and spawns no worker. -/
theorem run_zero_concurrency_division_fault :
    c2warmup.Run false false none = none ∧
    ({ c2warmup with Concurrency := -2 } : Warmup).Run true false none = some [] :=
  ⟨rfl, rfl⟩

/-- Claim C3 (code bug): the `sync.Once` ensures at most one dial attempt
(`dialCount` stays 1), but the connect error is stored in a per-call local
`connErr`, so a `Request` made after the first call's connect failed observes
a nil connect error and proceeds past the connect check instead of returning
the first call's error: here the first call returns the dial error and the
second returns `err = none`, its `GrpcNet` dial error never consulted. -/
theorem grpc_connect_error_not_memoized :
    (((GrpcClient.NewClient "host" false 5).Request c3netFail "pkg.Svc/M" "" []).2).err
        = some "Grpc dial: connection refused" ∧
    ((((GrpcClient.NewClient "host" false 5).Request c3netFail "pkg.Svc/M" "" []).1).Request
        c3netRetry "pkg.Svc/M" "" []).2.err = none ∧
    ((((GrpcClient.NewClient "host" false 5).Request c3netFail "pkg.Svc/M" "" []).1).Request
        c3netRetry "pkg.Svc/M" "" []).1.dialCount = 1 :=
  ⟨rfl, rfl, rfl⟩

/-- Claim C4 counterexample: at a call that takes 1 tick to construct, 5 ticks
in `Do` and 3 ticks to drain the body, `SendRequest` reports a duration of 5,
not the 9 ticks from request construction until the body is fully drained —
the measured interval does not include the body-drain step. -/
theorem sendRequest_duration_excludes_drain_cex :
    (SendRequest c4net).duration = 5 ∧ specDurationConstructionToDrain c4net = 9 ∧
      (SendRequest c4net).duration ≠ specDurationConstructionToDrain c4net :=
  ⟨rfl, rfl, by decide⟩

/-- Claim C4 as amended: for every HTTP send that successfully constructs a
request, the duration reported in the Outcome is exactly the wall-clock time
spent in the underlying `Do` call — `startTime` is taken after request
construction and `endTime` immediately after `Do` returns, before the body is
drained, so construction and body drain are both excluded. -/
theorem sendRequest_duration_is_do_call_span (net : HttpNet)
    (h : net.newRequestErr = none) :
    (SendRequest net).duration = net.doDuration := by
  unfold SendRequest
  rw [h]
  cases net.doErr <;> cases net.drainErr <;> simp

/-- Witness for the amended C4 theorem at a concrete input. -/
theorem sendRequest_duration_is_do_call_span_witness :
    c4net.newRequestErr = none ∧ (SendRequest c4net).duration = c4net.doDuration :=
  ⟨rfl, sendRequest_duration_is_do_call_span c4net rfl⟩

/-- Claim C8: a Request Source over an empty descriptor pool (HTTP or RPC)
produces the immediately empty sequence: zero elements, no error, and the
channel closes at time 0 instead of waiting for the deadline. -/
theorem empty_pool_sources_immediately_empty (w : Warmup) (maxDurationSeconds : Nat)
    (picks : List Nat) :
    (w.HttpRequests = [] → w.GetWarmupHTTPRequests maxDurationSeconds picks = ([], 0)) ∧
    (w.GrpcRequests = [] → w.GetWarmupGrpcRequests maxDurationSeconds picks = ([], 0)) := by
  constructor <;> intro h <;>
    simp [Warmup.GetWarmupHTTPRequests, Warmup.GetWarmupGrpcRequests, h]

/-- Witness for C8 at a concrete empty-pool configuration. -/
theorem empty_pool_sources_immediately_empty_witness :
    w0.GetWarmupHTTPRequests 30 [0, 1, 2] = ([], 0) ∧
    w0.GetWarmupGrpcRequests 30 [5] = ([], 0) :=
  ⟨(empty_pool_sources_immediately_empty w0 30 [0, 1, 2]).1 rfl,
   (empty_pool_sources_immediately_empty w0 30 [5]).2 rfl⟩

/-- Claim C10: calling `Close` on an RPC client that has never established a
connection returns no error — `NewClient` initializes the close function to a
no-op returning nil — and a failed connect leaves that close function
unchanged, it being replaced only on the successful connect path. -/
theorem close_without_connect_returns_nil :
    (∀ host insecure timeoutSeconds,
      (GrpcClient.NewClient host insecure timeoutSeconds).Close = none) ∧
    (∀ (c : GrpcClient) (net : GrpcNet) (e : String),
      ((c.connect { net with dialErr := some e }).1).connClose = c.connClose) :=
  ⟨fun _ _ _ => rfl, fun _ _ _ => rfl⟩

/-- Claim C5: with the gRPC phase configured, `Run`'s event sequence is the
HTTP phase's events (exactly those a run without gRPC would produce —
unaffected) followed by exactly one `Connect`, which precedes any gRPC worker
spawn; when that connect fails, the failure is logged and the gRPC tail
contains no worker spawn at all. -/
theorem run_grpc_connect_once_phase_fatal (w : Warmup) (hasHttp : Bool)
    (connErr : Option String) (hC : w.Concurrency ≠ 0) :
    ∃ httpEvts grpcTail,
      w.Run hasHttp false connErr = some httpEvts ∧
      w.Run hasHttp true connErr =
        some (httpEvts ++ RunEvent.grpcConnect connErr :: grpcTail) ∧
      httpEvts.countP isGrpcConnect = 0 ∧
      httpEvts.countP isGrpcSpawn = 0 ∧
      grpcTail.countP isGrpcConnect = 0 ∧
      (∀ e, connErr = some e →
        grpcTail = [RunEvent.logConnectError e] ∧ grpcTail.countP isGrpcSpawn = 0) := by
  refine ⟨if hasHttp then
      phaseEvents true (Int.tdiv w.ConcurrencyTargetSeconds w.Concurrency) w.Concurrency
    else [], ?_⟩
  have hhcon : (if hasHttp then
      phaseEvents true (Int.tdiv w.ConcurrencyTargetSeconds w.Concurrency) w.Concurrency
    else []).countP isGrpcConnect = 0 := by
    cases hasHttp <;> simp [countP_isGrpcConnect_phaseEvents]
  have hhspawn : (if hasHttp then
      phaseEvents true (Int.tdiv w.ConcurrencyTargetSeconds w.Concurrency) w.Concurrency
    else []).countP isGrpcSpawn = 0 := by
    cases hasHttp <;> simp [countP_isGrpcSpawn_phaseEvents_http]
  cases connErr with
  | some e =>
    refine ⟨[RunEvent.logConnectError e], ?_, ?_, hhcon, hhspawn,
      by simp [isGrpcConnect], ?_⟩
    · unfold Warmup.Run; rw [if_neg hC]; simp
    · unfold Warmup.Run; rw [if_neg hC]; simp
    · intro e' he'
      cases he'
      exact ⟨rfl, by simp [isGrpcSpawn]⟩
  | none =>
    refine ⟨phaseEvents false (Int.tdiv w.ConcurrencyTargetSeconds w.Concurrency)
        w.Concurrency, ?_, ?_, hhcon, hhspawn,
      countP_isGrpcConnect_phaseEvents false _ _, fun e he => by cases he⟩
    · unfold Warmup.Run; rw [if_neg hC]; simp
    · unfold Warmup.Run; rw [if_neg hC]; simp

/-- Witness for C5 at concurrency 2 with a failing connect. -/
theorem run_grpc_connect_once_phase_fatal_witness :
    ∃ httpEvts grpcTail,
      w5.Run true false (some "refused") = some httpEvts ∧
      w5.Run true true (some "refused") =
        some (httpEvts ++ RunEvent.grpcConnect (some "refused") :: grpcTail) ∧
      httpEvts.countP isGrpcConnect = 0 ∧
      httpEvts.countP isGrpcSpawn = 0 ∧
      grpcTail.countP isGrpcConnect = 0 ∧
      (∀ e, (some "refused" : Option String) = some e →
        grpcTail = [RunEvent.logConnectError e] ∧ grpcTail.countP isGrpcSpawn = 0) :=
  run_grpc_connect_once_phase_fatal w5 true (some "refused") (by decide)

/-- Claim C6: for target concurrency C > 0 and ramp window S ≥ 0, the per-step
delay is the integer division S / C; the launch loop's pauses are 0 for worker
1 and exactly the interval before each worker i > 1 (hence no pause when the
interval is 0), and the HTTP and gRPC phases produce identical pause
sequences; `Run` with both phases and a successful connect performs exactly
these two phase loops. -/
theorem ramp_schedule_integer_division (w : Warmup)
    (hC : 0 < w.Concurrency) (hS : 0 ≤ w.ConcurrencyTargetSeconds) :
    ∃ interval, interval = Int.tdiv w.ConcurrencyTargetSeconds w.Concurrency ∧
      rampSleeps (phaseEvents true interval w.Concurrency) =
        (List.range w.Concurrency.toNat).map (fun k => if k = 0 then 0 else interval) ∧
      rampSleeps (phaseEvents false interval w.Concurrency) =
        rampSleeps (phaseEvents true interval w.Concurrency) ∧
      w.Run true true none =
        some (phaseEvents true interval w.Concurrency ++
          RunEvent.grpcConnect none :: phaseEvents false interval w.Concurrency) := by
  have hitv : 0 ≤ Int.tdiv w.ConcurrencyTargetSeconds w.Concurrency :=
    Int.tdiv_nonneg hS (le_of_lt hC)
  refine ⟨_, rfl, ?_, ?_, ?_⟩
  · rw [rampSleeps_phaseEvents]
    refine List.map_congr_left fun k _ => ?_
    unfold waitForRampUp
    by_cases hk0 : k = 0
    · subst hk0
      simp
    · have h1 : (1 : Int) < (k : Int) + 1 := by omega
      rcases hitv.lt_or_eq with hpos | heq
      · rw [if_pos ⟨h1, hpos⟩, if_neg hk0]
      · rw [if_neg (by omega), if_neg hk0, ← heq]
  · rw [rampSleeps_phaseEvents, rampSleeps_phaseEvents]
  · unfold Warmup.Run
    rw [if_neg (by omega)]
    rfl

/-- Witness for C6 at the spec's example: C = 3, S = 6. -/
theorem ramp_schedule_integer_division_witness :
    ∃ interval, interval = Int.tdiv w6.ConcurrencyTargetSeconds w6.Concurrency ∧
      rampSleeps (phaseEvents true interval w6.Concurrency) =
        (List.range w6.Concurrency.toNat).map (fun k => if k = 0 then 0 else interval) ∧
      rampSleeps (phaseEvents false interval w6.Concurrency) =
        rampSleeps (phaseEvents true interval w6.Concurrency) ∧
      w6.Run true true none =
        some (phaseEvents true interval w6.Concurrency ++
          RunEvent.grpcConnect none :: phaseEvents false interval w6.Concurrency) :=
  ramp_schedule_integer_division w6 (by decide) (by decide)

/-- Claim C7: a single worker's final counter is its initial value plus
exactly the number of responses with no error — every no-error Outcome adds one,
every error Outcome adds nothing — and any transformation of the responses
that preserves the error field (for example changing the HTTP status class)
leaves the final counter unchanged: the status class affects only logging. -/
theorem http_worker_counter_counts_no_error_sends (d : Nat) (resps : List Response)
    (c0 : Nat) :
    (HTTPWarmupWorker d resps c0).1 = c0 + resps.countP (fun r => r.err.isNone) ∧
    ∀ f : Response → Response, (∀ r, (f r).err = r.err) →
      (HTTPWarmupWorker d (resps.map f) c0).1 = (HTTPWarmupWorker d resps c0).1 := by
  refine ⟨HTTPWarmupWorker_counter d resps c0, fun f hf => ?_⟩
  rw [HTTPWarmupWorker_counter, HTTPWarmupWorker_counter]
  congr 1
  rw [List.countP_map]
  exact List.countP_congr fun r _ => by simp [Function.comp, hf r]

/-- Witness for C7: three sends (2xx success, error, non-2xx success) yield a
counter of 2, and rewriting each status code to 404 leaves the counter at 2. -/
theorem http_worker_counter_counts_no_error_sends_witness :
    (HTTPWarmupWorker 0 [okResp, errResp, badResp] 0).1 =
        0 + ([okResp, errResp, badResp].countP (fun r => r.err.isNone)) ∧
    (HTTPWarmupWorker 0
        ([okResp, errResp, badResp].map (fun r => { r with statusCode := 404 })) 0).1 =
      (HTTPWarmupWorker 0 [okResp, errResp, badResp] 0).1 :=
  ⟨(http_worker_counter_counts_no_error_sends 0 [okResp, errResp, badResp] 0).1,
   (http_worker_counter_counts_no_error_sends 0 [okResp, errResp, badResp] 0).2
     (fun r => { r with statusCode := 404 }) (fun _ => rfl)⟩

/-- Claim C9: in both the HTTP and the gRPC worker, every send event is
immediately preceded by a pacing sleep of the configured per-request delay,
and a worker with at least one request starts its trace with that sleep —
the delay is applied even before the very first send. -/
theorem worker_pacing_delay_before_every_send (d : Nat) (resps : List Response)
    (c0 : Nat) :
    sleepBeforeSend d (HTTPWarmupWorker d resps c0).2 ∧
    sleepBeforeSend d (GrpcWarmupWorker d resps c0).2 ∧
    (resps ≠ [] →
      ((HTTPWarmupWorker d resps c0).2)[0]? = some (WorkerEvent.sleep d) ∧
      ((GrpcWarmupWorker d resps c0).2)[0]? = some (WorkerEvent.sleep d)) := by
  refine ⟨sleepBeforeSend_HTTPWarmupWorker d resps c0,
    sleepBeforeSend_GrpcWarmupWorker d resps c0, fun h => ?_⟩
  cases resps with
  | nil => exact absurd rfl h
  | cons r rest =>
    constructor <;>
      simp [HTTPWarmupWorker, GrpcWarmupWorker, httpIterEvents, grpcIterEvents]

/-- Witness for C9 with one erroneous response and delay 7. -/
theorem worker_pacing_delay_before_every_send_witness :
    ([errResp] : List Response) ≠ [] ∧
    ((HTTPWarmupWorker 7 [errResp] 0).2)[0]? = some (WorkerEvent.sleep 7) ∧
    ((GrpcWarmupWorker 7 [errResp] 0).2)[0]? = some (WorkerEvent.sleep 7) :=
  ⟨List.cons_ne_nil _ _,
   (worker_pacing_delay_before_every_send 7 [errResp] 0).2.2 (List.cons_ne_nil _ _)⟩

end Mittens
